import Mathlib

/-!
Shallow embedding of `src/app.py` (arxiv-summary): a crewAI script that
fetches arXiv paper metadata for a target date via a custom tool
(`FetchArxivPapersTool`), has an LLM "researcher" agent rank the papers, and
an LLM "frontend engineer" agent write an HTML report.

Pure Python values (dates, strings, the query construction, configuration
objects) are translated directly from the source.  The arXiv API and the two
LLM calls are modelled as oracles; side effects (prints, sleeps, API
requests, file writes) are collected into an explicit trace.
-/

namespace ArxivApp

/- ## Dates: embedding of Python `datetime.date` (proleptic Gregorian). -/

/-- A calendar date, as Python `datetime.date` (year, month, day). -/
structure Date where
  year : Nat
  month : Nat
  day : Nat
deriving DecidableEq, Repr

/-- Gregorian leap-year rule, as used by Python `datetime`. -/
def isLeap (y : Nat) : Bool :=
  y % 4 == 0 && (y % 100 != 0 || y % 400 == 0)

/-- Number of days in month `m` of year `y` (months numbered 1..12). -/
def daysInMonth (y m : Nat) : Nat :=
  if m = 2 then (if isLeap y then 29 else 28)
  else if m = 4 ∨ m = 6 ∨ m = 9 ∨ m = 11 then 30
  else 31

/-- A calendar-valid date (Python `datetime.date` further bounds the year by
`MINYEAR = 1`; the upper bound `MAXYEAR = 9999` is tracked separately where
it matters). -/
def ValidDate (d : Date) : Prop :=
  1 ≤ d.year ∧ 1 ≤ d.month ∧ d.month ≤ 12 ∧ 1 ≤ d.day ∧
    d.day ≤ daysInMonth d.year d.month

instance (d : Date) : Decidable (ValidDate d) :=
  inferInstanceAs (Decidable (1 ≤ d.year ∧ 1 ≤ d.month ∧ d.month ≤ 12 ∧ 1 ≤ d.day ∧
    d.day ≤ daysInMonth d.year d.month))

/-- Embedding of `target_date + datetime.timedelta(days=1)` from
`src/app.py` line 66: the calendar successor of a date. -/
def nextDay (d : Date) : Date :=
  if d.day < daysInMonth d.year d.month then ⟨d.year, d.month, d.day + 1⟩
  else if d.month < 12 then ⟨d.year, d.month + 1, 1⟩
  else ⟨d.year + 1, 1, 1⟩

/-- Days in all years strictly before year `y` (rata die, as in Python
`date.toordinal`). -/
def daysBeforeYear (y : Nat) : Nat :=
  365 * (y - 1) + (y - 1) / 4 + (y - 1) / 400 - (y - 1) / 100

/-- Days in year `y` strictly before month `m`. -/
def daysBeforeMonth (y m : Nat) : Nat :=
  (if 1 < m then 31 else 0) +
  (if 2 < m then (if isLeap y then 29 else 28) else 0) +
  (if 3 < m then 31 else 0) +
  (if 4 < m then 30 else 0) +
  (if 5 < m then 31 else 0) +
  (if 6 < m then 30 else 0) +
  (if 7 < m then 31 else 0) +
  (if 8 < m then 31 else 0) +
  (if 9 < m then 30 else 0) +
  (if 10 < m then 31 else 0) +
  (if 11 < m then 30 else 0)

/-- Proleptic-Gregorian ordinal of a date (Python `date.toordinal`):
day 1 is 0001-01-01. -/
def toOrdinal (d : Date) : Nat :=
  daysBeforeYear d.year + daysBeforeMonth d.year d.month + d.day

lemma daysInMonth_pos (y m : Nat) : 1 ≤ daysInMonth y m := by
  unfold daysInMonth
  split <;> [skip; split] <;> first | omega | (split <;> omega)

lemma daysBeforeMonth_one (y : Nat) : daysBeforeMonth y 1 = 0 := by
  simp [daysBeforeMonth]

lemma daysBeforeMonth_twelve (y : Nat) :
    daysBeforeMonth y 12 = 334 + (if isLeap y then 1 else 0) := by
  cases h : isLeap y <;> simp [daysBeforeMonth, h]

lemma daysInMonth_twelve (y : Nat) : daysInMonth y 12 = 31 := by
  simp [daysInMonth]

lemma isLeap_iff (y : Nat) :
    isLeap y = true ↔ (y % 4 = 0 ∧ (y % 100 ≠ 0 ∨ y % 400 = 0)) := by
  simp [isLeap]

set_option maxHeartbeats 2000000 in
lemma daysBeforeYear_succ (y : Nat) (hy : 1 ≤ y) :
    daysBeforeYear (y + 1) = daysBeforeYear y + 365 + (if isLeap y then 1 else 0) := by
  obtain ⟨k, rfl⟩ : ∃ k, y = k + 1 := ⟨y - 1, by omega⟩
  unfold daysBeforeYear
  simp only [Nat.add_sub_cancel]
  have h1 : (k + 1) % 100 = 0 → (k + 1) % 4 = 0 := by omega
  have h2 : (k + 1) % 400 = 0 → (k + 1) % 100 = 0 := by omega
  have h3 : k % 100 = 0 → k % 4 = 0 := by omega
  have h4 : k % 400 = 0 → k % 100 = 0 := by omega
  by_cases hl : isLeap (k + 1) = true
  · rw [if_pos hl]
    rw [isLeap_iff] at hl
    omega
  · rw [if_neg hl]
    rw [isLeap_iff] at hl
    omega

set_option maxHeartbeats 1000000 in
lemma daysBeforeMonth_succ (y m : Nat) (h1 : 1 ≤ m) (h2 : m ≤ 11) :
    daysBeforeMonth y (m + 1) = daysBeforeMonth y m + daysInMonth y m := by
  interval_cases m <;> cases h : isLeap y <;>
    simp [daysBeforeMonth, daysInMonth, h]

/-- The successor function `nextDay` advances the ordinal by exactly one:
it really is "the following day". -/
theorem toOrdinal_nextDay (d : Date) (h : ValidDate d) :
    toOrdinal (nextDay d) = toOrdinal d + 1 := by
  obtain ⟨hy, hm1, hm2, hd1, hd2⟩ := h
  unfold nextDay
  split
  · simp only [toOrdinal]
    omega
  · rename_i hday
    split
    · rename_i hmon
      simp only [toOrdinal]
      rw [daysBeforeMonth_succ d.year d.month hm1 (by omega)]
      omega
    · rename_i hmon
      have hm12 : d.month = 12 := by omega
      have h31 : daysInMonth d.year d.month = 31 := by
        rw [hm12, daysInMonth_twelve]
      simp only [toOrdinal, daysBeforeMonth_one, hm12]
      rw [daysBeforeYear_succ d.year hy, daysBeforeMonth_twelve]
      split <;> omega

/-- `nextDay` of a calendar-valid date is calendar-valid. -/
theorem validDate_nextDay (d : Date) (h : ValidDate d) : ValidDate (nextDay d) := by
  obtain ⟨hy, hm1, hm2, hd1, hd2⟩ := h
  unfold nextDay
  split
  · rename_i hlt
    exact ⟨hy, hm1, hm2, Nat.succ_le_succ (Nat.zero_le _), hlt⟩
  · split
    · rename_i hmon
      exact ⟨hy, Nat.succ_le_succ (Nat.zero_le _), hmon, Nat.le_refl 1,
        daysInMonth_pos _ _⟩
    · exact ⟨Nat.succ_le_succ (Nat.zero_le _), Nat.le_refl 1,
        show (1:Nat) ≤ 12 by omega, Nat.le_refl 1, daysInMonth_pos _ _⟩

/- ## String rendering of dates: embedding of `strftime` as used in `_run`. -/

/-- Two-digit zero-padded decimal rendering (`%m`, `%d`, `%H`, `%M`). -/
def pad2 (n : Nat) : String :=
  String.mk [Nat.digitChar (n / 10 % 10), Nat.digitChar (n % 10)]

/-- Four-digit zero-padded decimal rendering (`%Y` for years up to 9999). -/
def pad4 (n : Nat) : String :=
  String.mk [Nat.digitChar (n / 1000 % 10), Nat.digitChar (n / 100 % 10),
    Nat.digitChar (n / 10 % 10), Nat.digitChar (n % 10)]

/-- Embedding of `d.strftime('%Y%m%d%H%M')` on a `datetime.date` (src lines
65-66): a date has hour 0 and minute 0, so the rendered time is `0000`. -/
def strftimeYmdHM (d : Date) : String :=
  pad4 d.year ++ pad2 d.month ++ pad2 d.day ++ "0000"

/- ## The arXiv client, search and result shapes (`arxiv` library surface). -/

/-- Configuration of `arxiv.Client` as constructed in `_run` (src 72-75). -/
structure ClientConfig where
  page_size : Nat
  delay_seconds : Nat
deriving DecidableEq, Repr

/-- Embedding of `arxiv.SortCriterion`. -/
inductive SortCriterion where
  | relevance
  | lastUpdatedDate
  | submittedDate
deriving DecidableEq, Repr

/-- Embedding of `arxiv.Search` as constructed in `_run` (src 84-88);
`max_results = none` means "fetch all results". -/
structure Search where
  query : String
  sort_by : SortCriterion
  max_results : Option Nat
deriving DecidableEq, Repr

/-- An author record as returned by the arXiv API. -/
structure Author where
  name : String
deriving DecidableEq, Repr

/-- A result record as yielded by `client.results(search)`. -/
structure ArxivResult where
  title : String
  authors : List Author
  summary : String
  published : String
  entry_id : String
deriving DecidableEq, Repr

/-- The paper dictionary built in `_run` (src 93-99): exactly the five keys
`title`, `authors`, `summary`, `published`, `url`. -/
structure Paper where
  title : String
  authors : List String
  summary : String
  published : String
  url : String
deriving DecidableEq, Repr

/-- The dictionary construction from a result (src 93-99). -/
def toPaper (r : ArxivResult) : Paper :=
  { title := r.title
    authors := r.authors.map Author.name
    summary := r.summary
    published := r.published
    url := r.entry_id }

/-- `AI_CATEGORIES` from `_run` (src 62). -/
def AI_CATEGORIES : List String := ["cs.CL"]

/-- The `arxiv.Client(page_size=100, delay_seconds=3)` object (src 72-75). -/
def client : ClientConfig :=
  { page_size := 100, delay_seconds := 3 }

/-- The `arxiv.Search` object built for one category in the loop body of
`_run` (src 82-88), with the f-string query from line 82. -/
def categorySearch (d : Date) (category : String) : Search :=
  { query := "cat:" ++ category ++ " AND submittedDate:[" ++ strftimeYmdHM d ++
      " TO " ++ strftimeYmdHM (nextDay d) ++ "]"
    sort_by := SortCriterion.submittedDate
    max_results := none }

/- ## Side effects of a run, collected into an explicit trace. -/

/-- A network failure raised by the arXiv client. -/
structure NetworkError where
  msg : String
deriving DecidableEq, Repr

/-- Coarse stage markers for the three pipeline stages. -/
inductive StageEvent where
  | fetchStart
  | fetchEnd
  | rankStart
  | rankEnd
  | reportStart
  | reportEnd
deriving DecidableEq, Repr

/-- Observable side effects of a run. -/
inductive Effect where
  | printed (msg : String)
  | slept (seconds : Nat)
  | apiRequest (cfg : ClientConfig) (s : Search)
  | yielded (r : ArxivResult)
  | fileWrite (path : String) (content : String)
  | stage (e : StageEvent)
deriving DecidableEq, Repr

def isFileWrite : Effect → Bool
  | Effect.fileWrite _ _ => true
  | _ => false

def isApiRequest : Effect → Bool
  | Effect.apiRequest _ _ => true
  | _ => false

def isSleepEffect : Effect → Bool
  | Effect.slept _ => true
  | _ => false

def stageOf : Effect → Option StageEvent
  | Effect.stage s => some s
  | _ => none

/-- The stage markers of a trace, in order. -/
def stageEvents (tr : List Effect) : List StageEvent :=
  tr.filterMap stageOf

/- ## The fetch tool `FetchArxivPapersTool._run` (src 48-107). -/

/-- The category loop of `_run` (src 79-105).  `api` is the arXiv API
oracle standing for `client.results(search)`: it either yields the full
result list of a search or raises a network error.  The trace records the
two prints, the API request, each yielded result and the `time.sleep(3)`
executed after it.  A raised error aborts the loop and propagates. -/
def fetchGo (d : Date) (api : Search → Except NetworkError (List ArxivResult)) :
    List String → List Effect → List Paper →
      List Effect × Except NetworkError (List Paper)
  | [], tr, acc => (tr, Except.ok acc)
  | c :: rest, tr, acc =>
    let s := categorySearch d c
    let tr1 := tr ++ [Effect.printed ("Fetching papers for category: " ++ c),
      Effect.apiRequest client s]
    match api s with
    | Except.error e => (tr1, Except.error e)
    | Except.ok rs =>
      let tr2 := tr1 ++ rs.flatMap (fun r => [Effect.yielded r, Effect.slept 3])
      let tr3 := tr2 ++
        [Effect.printed ("Fetched " ++ toString rs.length ++ " papers from " ++ c)]
      fetchGo d api rest tr3 (acc ++ rs.map toPaper)

/-- Embedding of `FetchArxivPapersTool._run` (src 48-107): runs the category
loop over `AI_CATEGORIES` and returns the collected trace together with
either the list of paper dictionaries or the propagated error. -/
def fetchRun (d : Date) (api : Search → Except NetworkError (List ArxivResult)) :
    List Effect × Except NetworkError (List Paper) :=
  fetchGo d api AI_CATEGORIES [] []

/- ## crewAI configuration objects (src 109-197). -/

/-- A crewAI tool, as configured in the source: its name, its published
description, and the field names of its pydantic input schema. -/
structure ToolSpec where
  name : String
  description : String
  argsSchemaFields : List String
deriving DecidableEq, Repr

/-- The `FetchArxivPapersTool` instance `arxiv_search_tool` (src 35-46, 109).
Its input schema `FetchArxivPapersInput` (src 29-31) has the single required
field `target_date`. -/
def arxiv_search_tool : ToolSpec :=
  { name := "fetch_arxiv_papers"
    description := "Fetches all ArXiv papers from selected AI categories (e.g., cs.CL, cs.AI) submitted on the target date."
    argsSchemaFields := ["target_date"] }

/-- A crewAI `Agent`, as configured in the source. -/
structure AgentSpec where
  role : String
  goal : String
  backstory : String
  verbose : Bool
  tools : List ToolSpec
deriving DecidableEq, Repr

/-- Agent 1, `researcher` (src 118-128). -/
def researcher : AgentSpec :=
  { role := "Senior AI Researcher"
    goal := "Identify and rank the top 10 most significant ArXiv papers published on {date} in specified AI categories. Focus on papers with potential for high impact or novel contributions."
    backstory := "You are a highly experienced AI researcher with a Ph.D. and numerous publications in top-tier journals and conferences. You have a keen eye for groundbreaking research and can quickly discern a paper\x27s quality and potential impact from its abstract and title. Your expertise spans across various AI subfields including NLP, Computer Vision, Machine Learning, and Robotics."
    verbose := true
    tools := [arxiv_search_tool] }

/-- Agent 2, `frontend_engineer` (src 133-141); it has no tools. -/
def frontend_engineer : AgentSpec :=
  { role := "Senior Frontend Engineer specializing in AI Application Interfaces"
    goal := "Create a well-structured and visually appealing HTML report summarizing the top AI research papers identified by the researcher."
    backstory := "You are a seasoned frontend engineer with over a decade of experience in building intuitive and responsive web interfaces. You have a strong understanding of HTML, CSS, and JavaScript, and you\x27re passionate about making complex information accessible. You also have a foundational understanding of AI concepts, allowing you to effectively present research findings."
    verbose := true
    tools := [] }

/-- A crewAI `Task`, as configured in the source.  `context` lists the tasks
whose outputs feed this task; `output_file` is the optional path the task
result is written to. -/
structure TaskSpec where
  description : String
  expected_output : String
  agent : AgentSpec
  human_input : Bool
  context : List TaskSpec
  output_file : Option String

/-- `research_task` (src 146-160): no `context`, no `output_file`. -/
def research_task : TaskSpec :=
  { description := "Based on the papers fetched from ArXiv for {date}, identify the top 10 most impactful research papers. Consider factors like novelty, methodology, potential applications, and relevance to current AI trends. Provide a brief justification for each selection."
    expected_output := "A curated list of the top 10 research papers. Each item in the list should include: - Paper Title - List of Authors - Full Abstract - Direct URL to the ArXiv paper - A brief (1-2 sentences) justification for why it\x27s considered a top paper."
    agent := researcher
    human_input := true
    context := []
    output_file := none }

/-- `reporting_task` (src 165-181): depends on `research_task` via `context`
and writes its output to the fixed path `./ai_research_report.html`. -/
def reporting_task : TaskSpec :=
  { description := "Take the curated list of top 10 ArXiv papers and compile them into a user-friendly HTML report. The report should be well-organized, easy to read, and visually appealing. Each paper entry should include its title (as a clickable link to the ArXiv page), authors, and a concise summary of its abstract (around 2-4 sentences)."
    expected_output := "A single HTML file named \x27ai_research_report.html\x27. The HTML file should present a list titled \x27Top 10 AI Research Papers for {date}\x27. Each paper in the list should display: 1. Title (hyperlinked to the ArXiv URL, opening in a new tab). 2. Authors. 3. A concise summary of the abstract (2-4 sentences)."
    agent := frontend_engineer
    human_input := true
    context := [research_task]
    output_file := some "./ai_research_report.html" }

/-- A crewAI `Crew`, as configured in the source. -/
structure CrewSpec where
  agents : List AgentSpec
  tasks : List TaskSpec

/-- `arxiv_research_crew` (src 186-190): the two agents and the two tasks,
in order; no `process` argument is given, so the crew runs its tasks
sequentially (crewAI default). -/
def arxiv_research_crew : CrewSpec :=
  { agents := [researcher, frontend_engineer]
    tasks := [research_task, reporting_task] }

/-- `crew_inputs` (src 195-197): the single kickoff input, keyed `date`. -/
def crew_inputs : List (String × String) :=
  [("date", "2025-03-12")]

/- ## The run pipeline. -/

/-- An error terminating a run: a network failure from the fetch, or a
failure of one of the two hosted-LLM calls. -/
inductive RunError where
  | network (e : NetworkError)
  | llm (msg : String)
deriving DecidableEq, Repr

/-- Modelled from the spec: `arxiv_research_crew.kickoff(inputs=crew_inputs)`
(src 199) is executed by the crewAI library, which is not part of src/.
Per the spec, all operations are synchronous, single-threaded and strictly
ordered — the fetch completes fully before ranking begins and ranking
completes fully before rendering begins — no error is caught anywhere, and
the reporting task writes its result to its configured `output_file`.
The two hosted-LLM calls are the oracles `rank` and `report`. -/
def crewKickoff (d : Date)
    (api : Search → Except NetworkError (List ArxivResult))
    (rank : List Paper → Except String (List Paper))
    (report : List Paper → Except String String) :
    List Effect × Except RunError String :=
  match fetchRun d api with
  | (ftr, Except.error e) =>
    (Effect.stage StageEvent.fetchStart :: ftr, Except.error (RunError.network e))
  | (ftr, Except.ok papers) =>
    match rank papers with
    | Except.error m =>
      (Effect.stage StageEvent.fetchStart :: ftr ++
        [Effect.stage StageEvent.fetchEnd, Effect.stage StageEvent.rankStart],
       Except.error (RunError.llm m))
    | Except.ok ranked =>
      match report ranked with
      | Except.error m =>
        (Effect.stage StageEvent.fetchStart :: ftr ++
          [Effect.stage StageEvent.fetchEnd, Effect.stage StageEvent.rankStart,
           Effect.stage StageEvent.rankEnd, Effect.stage StageEvent.reportStart],
         Except.error (RunError.llm m))
      | Except.ok html =>
        (Effect.stage StageEvent.fetchStart :: ftr ++
          [Effect.stage StageEvent.fetchEnd, Effect.stage StageEvent.rankStart,
           Effect.stage StageEvent.rankEnd, Effect.stage StageEvent.reportStart,
           Effect.stage StageEvent.reportEnd] ++
          (match reporting_task.output_file with
           | some p => [Effect.fileWrite p html]
           | none => []),
         Except.ok html)

/- ## Validation of the tool input string (pydantic date parsing). -/

/-- Value of a decimal digit character. -/
def charVal (c : Char) : Nat := c.toNat - 48

/-- Decimal digit test (codepoints 48 to 57). -/
def isDigitChar (c : Char) : Bool := 48 ≤ c.toNat && c.toNat ≤ 57

/-- Numeric value of two decimal digit characters. -/
def digitsVal2 (a b : Char) : Nat := charVal a * 10 + charVal b

/-- Numeric value of four decimal digit characters. -/
def digitsVal4 (a b c d : Char) : Nat :=
  ((charVal a * 10 + charVal b) * 10 + charVal c) * 10 + charVal d

/-- Modelled from the spec: pydantic validation of the tool argument
`target_date : datetime.date` (`FetchArxivPapersInput`, src 29-31; the spec
gives the input format as a date string `YYYY-MM-DD`).  The pydantic library
itself is not part of src/.  A string passes validation exactly when it has
the ten-character shape `YYYY-MM-DD` with decimal digits in the digit
positions and the encoded numbers form a calendar-valid date; the parsed
date is returned, otherwise validation fails before `_run` executes. -/
def validateTargetDate (s : String) : Option Date :=
  match s.toList with
  | [y1, y2, y3, y4, s1, m1, m2, s2, d1, d2] =>
    if s1 == '-' && s2 == '-' && isDigitChar y1 && isDigitChar y2 && isDigitChar y3 &&
        isDigitChar y4 && isDigitChar m1 && isDigitChar m2 && isDigitChar d1 &&
        isDigitChar d2 then
      if ValidDate ⟨digitsVal4 y1 y2 y3 y4, digitsVal2 m1 m2, digitsVal2 d1 d2⟩ then
        some ⟨digitsVal4 y1 y2 y3 y4, digitsVal2 m1 m2, digitsVal2 d1 d2⟩
      else none
    else none
  | _ => none

/-- The `YYYY-MM-DD` rendering of a date. -/
def renderISO (d : Date) : String :=
  pad4 d.year ++ "-" ++ pad2 d.month ++ "-" ++ pad2 d.day

/-- The spec-side notion of "a valid date string in `YYYY-MM-DD` format":
the rendering of some calendar-valid date (with a year of at most four
digits, the range of Python `datetime.date`). -/
def IsValidDateString (s : String) : Prop :=
  ∃ d : Date, ValidDate d ∧ d.year ≤ 9999 ∧ s = renderISO d

lemma char_eq_of_toNat_eq {a b : Char} (h : a.toNat = b.toNat) : a = b :=
  Char.ext (UInt32.ext h)

lemma charVal_le_nine {c : Char} (h : isDigitChar c = true) : charVal c ≤ 9 := by
  simp only [isDigitChar, Bool.and_eq_true, decide_eq_true_eq] at h
  unfold charVal
  omega

lemma digitChar_charVal {c : Char} (h : isDigitChar c = true) :
    Nat.digitChar (charVal c) = c := by
  simp only [isDigitChar, Bool.and_eq_true, decide_eq_true_eq] at h
  have h10 : c.toNat = 48 ∨ c.toNat = 49 ∨ c.toNat = 50 ∨ c.toNat = 51 ∨ c.toNat = 52 ∨
      c.toNat = 53 ∨ c.toNat = 54 ∨ c.toNat = 55 ∨ c.toNat = 56 ∨ c.toNat = 57 := by
    omega
  unfold charVal
  rcases h10 with h|h|h|h|h|h|h|h|h|h <;> rw [h] <;>
    exact char_eq_of_toNat_eq (by rw [h]; decide)

lemma isDigitChar_digitChar {v : Nat} (h : v ≤ 9) :
    isDigitChar (Nat.digitChar v) = true := by
  interval_cases v <;> decide

lemma charVal_digitChar {v : Nat} (h : v ≤ 9) : charVal (Nat.digitChar v) = v := by
  interval_cases v <;> decide

lemma pad4_data_of_digits {a b c d : Char} (ha : isDigitChar a = true)
    (hb : isDigitChar b = true) (hc : isDigitChar c = true) (hd : isDigitChar d = true) :
    (pad4 (digitsVal4 a b c d)).data = [a, b, c, d] := by
  have ba := charVal_le_nine ha
  have bb := charVal_le_nine hb
  have bc := charVal_le_nine hc
  have bd := charVal_le_nine hd
  have e1 : digitsVal4 a b c d / 1000 % 10 = charVal a := by unfold digitsVal4; omega
  have e2 : digitsVal4 a b c d / 100 % 10 = charVal b := by unfold digitsVal4; omega
  have e3 : digitsVal4 a b c d / 10 % 10 = charVal c := by unfold digitsVal4; omega
  have e4 : digitsVal4 a b c d % 10 = charVal d := by unfold digitsVal4; omega
  show [Nat.digitChar (digitsVal4 a b c d / 1000 % 10),
    Nat.digitChar (digitsVal4 a b c d / 100 % 10),
    Nat.digitChar (digitsVal4 a b c d / 10 % 10),
    Nat.digitChar (digitsVal4 a b c d % 10)] = [a, b, c, d]
  rw [e1, e2, e3, e4, digitChar_charVal ha, digitChar_charVal hb,
    digitChar_charVal hc, digitChar_charVal hd]

lemma pad2_data_of_digits {a b : Char} (ha : isDigitChar a = true)
    (hb : isDigitChar b = true) :
    (pad2 (digitsVal2 a b)).data = [a, b] := by
  have ba := charVal_le_nine ha
  have bb := charVal_le_nine hb
  have e1 : digitsVal2 a b / 10 % 10 = charVal a := by unfold digitsVal2; omega
  have e2 : digitsVal2 a b % 10 = charVal b := by unfold digitsVal2; omega
  show [Nat.digitChar (digitsVal2 a b / 10 % 10), Nat.digitChar (digitsVal2 a b % 10)] =
    [a, b]
  rw [e1, e2, digitChar_charVal ha, digitChar_charVal hb]

lemma renderISO_data (d : Date) :
    (renderISO d).data =
      (pad4 d.year).data ++ '-' :: ((pad2 d.month).data ++ '-' :: (pad2 d.day).data) := by
  simp [renderISO, String.data_append]

lemma digitsVal4_digitChar {y : Nat} (hy : y ≤ 9999) :
    digitsVal4 (Nat.digitChar (y / 1000 % 10)) (Nat.digitChar (y / 100 % 10))
      (Nat.digitChar (y / 10 % 10)) (Nat.digitChar (y % 10)) = y := by
  unfold digitsVal4
  rw [charVal_digitChar (by omega), charVal_digitChar (by omega),
    charVal_digitChar (by omega), charVal_digitChar (by omega)]
  omega

lemma digitsVal2_digitChar {m : Nat} (hm : m ≤ 99) :
    digitsVal2 (Nat.digitChar (m / 10 % 10)) (Nat.digitChar (m % 10)) = m := by
  unfold digitsVal2
  rw [charVal_digitChar (by omega), charVal_digitChar (by omega)]
  omega

lemma daysInMonth_le (y m : Nat) : daysInMonth y m ≤ 31 := by
  unfold daysInMonth
  split <;> [split; split] <;> omega

/-- Validation succeeds exactly on valid `YYYY-MM-DD` date strings. -/
lemma validateTargetDate_isSome_iff (s : String) :
    (validateTargetDate s).isSome = true ↔ IsValidDateString s := by
  constructor
  · intro h
    unfold validateTargetDate at h
    split at h
    · rename_i y1 y2 y3 y4 s1 m1 m2 s2 d1 d2 heq
      split at h
      · rename_i hb
        split at h
        · rename_i hv
          simp only [Bool.and_eq_true, beq_iff_eq] at hb
          obtain ⟨⟨⟨⟨⟨⟨⟨⟨⟨h1, h2⟩, h3⟩, h4⟩, h5⟩, h6⟩, h7⟩, h8⟩, h9⟩, h10⟩ := hb
          subst h1
          subst h2
          refine ⟨⟨digitsVal4 y1 y2 y3 y4, digitsVal2 m1 m2, digitsVal2 d1 d2⟩, hv, ?_, ?_⟩
          · show digitsVal4 y1 y2 y3 y4 ≤ 9999
            have b1 := charVal_le_nine h3
            have b2 := charVal_le_nine h4
            have b3 := charVal_le_nine h5
            have b4 := charVal_le_nine h6
            unfold digitsVal4
            omega
          · apply String.ext
            rw [show s.data = s.toList from rfl, heq, renderISO_data]
            dsimp only
            rw [pad4_data_of_digits h3 h4 h5 h6, pad2_data_of_digits h7 h8,
              pad2_data_of_digits h9 h10]
            rfl
        · simp at h
      · simp at h
    · simp at h
  · rintro ⟨d, hv, hy, rfl⟩
    have hs : (renderISO d).toList =
        [Nat.digitChar (d.year / 1000 % 10), Nat.digitChar (d.year / 100 % 10),
         Nat.digitChar (d.year / 10 % 10), Nat.digitChar (d.year % 10), '-',
         Nat.digitChar (d.month / 10 % 10), Nat.digitChar (d.month % 10), '-',
         Nat.digitChar (d.day / 10 % 10), Nat.digitChar (d.day % 10)] := by
      rw [show (renderISO d).toList = (renderISO d).data from rfl, renderISO_data]
      rfl
    obtain ⟨hy1, hm1, hm2, hd1, hd2⟩ := hv
    have hm99 : d.month ≤ 99 := by omega
    have hd99 : d.day ≤ 99 := by
      have := daysInMonth_le d.year d.month
      omega
    have hv' : ValidDate ⟨d.year, d.month, d.day⟩ := ⟨hy1, hm1, hm2, hd1, hd2⟩
    unfold validateTargetDate
    rw [hs]
    simp only [isDigitChar_digitChar (Nat.le_of_lt_succ (Nat.mod_lt _ (by omega))),
      digitsVal4_digitChar hy, digitsVal2_digitChar hm99, digitsVal2_digitChar hd99]
    simp [hv']

/- ## Computation lemmas for the fetch run and the crew pipeline. -/

/-- On a successful API response the fetch returns the mapped papers and the
trace is the two prints, the one request, and a yield-sleep pair per record. -/
lemma fetchRun_ok (d : Date) (api : Search → Except NetworkError (List ArxivResult))
    (rs : List ArxivResult) (h : api (categorySearch d "cs.CL") = Except.ok rs) :
    fetchRun d api =
      (Effect.printed ("Fetching papers for category: " ++ "cs.CL") ::
        Effect.apiRequest client (categorySearch d "cs.CL") ::
        (rs.flatMap (fun r => [Effect.yielded r, Effect.slept 3]) ++
          [Effect.printed ("Fetched " ++ toString rs.length ++ " papers from " ++ "cs.CL")]),
       Except.ok (rs.map toPaper)) := by
  simp [fetchRun, AI_CATEGORIES, fetchGo, h]

/-- On a network failure the fetch aborts after issuing the request and the
error propagates. -/
lemma fetchRun_error (d : Date) (api : Search → Except NetworkError (List ArxivResult))
    (e : NetworkError) (h : api (categorySearch d "cs.CL") = Except.error e) :
    fetchRun d api =
      ([Effect.printed ("Fetching papers for category: " ++ "cs.CL"),
        Effect.apiRequest client (categorySearch d "cs.CL")],
       Except.error e) := by
  simp [fetchRun, AI_CATEGORIES, fetchGo, h]

lemma filterMap_stageOf_yield_sleep (rs : List ArxivResult) :
    (rs.flatMap (fun r => [Effect.yielded r, Effect.slept 3])).filterMap stageOf = [] := by
  induction rs with
  | nil => rfl
  | cons r t ih => simpa [stageOf] using ih

lemma filter_isFileWrite_yield_sleep (rs : List ArxivResult) :
    (rs.flatMap (fun r => [Effect.yielded r, Effect.slept 3])).filter isFileWrite = [] := by
  induction rs with
  | nil => rfl
  | cons r t ih => simpa [isFileWrite] using ih

lemma filter_isApiRequest_yield_sleep (rs : List ArxivResult) :
    (rs.flatMap (fun r => [Effect.yielded r, Effect.slept 3])).filter isApiRequest = [] := by
  induction rs with
  | nil => rfl
  | cons r t ih => simpa [isApiRequest] using ih

lemma countP_isSleep_yield_sleep (rs : List ArxivResult) :
    (rs.flatMap (fun r => [Effect.yielded r, Effect.slept 3])).countP isSleepEffect =
      rs.length := by
  induction rs with
  | nil => rfl
  | cons r t ih => simp [List.countP_cons, isSleepEffect, ih]

lemma mem_yield_sleep (rs : List ArxivResult) (e : Effect)
    (h : e ∈ rs.flatMap (fun r => [Effect.yielded r, Effect.slept 3])) :
    (∃ r ∈ rs, e = Effect.yielded r) ∨ e = Effect.slept 3 := by
  rcases List.mem_flatMap.mp h with ⟨r, hr, hm⟩
  rcases List.mem_cons.mp hm with h1 | h1
  · exact Or.inl ⟨r, hr, h1⟩
  · simp only [List.mem_singleton] at h1
    exact Or.inr h1

/-- No stage markers are emitted inside the fetch tool itself. -/
lemma stageEvents_fetchRun (d : Date)
    (api : Search → Except NetworkError (List ArxivResult)) :
    stageEvents (fetchRun d api).1 = [] := by
  cases h : api (categorySearch d "cs.CL") with
  | error e =>
    rw [fetchRun_error d api e h]
    rfl
  | ok rs =>
    rw [fetchRun_ok d api rs h]
    simp [stageEvents, stageOf, filterMap_stageOf_yield_sleep]

/-- The fetch tool writes no file. -/
lemma filter_isFileWrite_fetchRun (d : Date)
    (api : Search → Except NetworkError (List ArxivResult)) :
    (fetchRun d api).1.filter isFileWrite = [] := by
  cases h : api (categorySearch d "cs.CL") with
  | error e =>
    rw [fetchRun_error d api e h]
    rfl
  | ok rs =>
    rw [fetchRun_ok d api rs h]
    simp [isFileWrite, filter_isFileWrite_yield_sleep]

/-- The fetch tool issues exactly one API request, for the `cs.CL` search. -/
lemma filter_isApiRequest_fetchRun (d : Date)
    (api : Search → Except NetworkError (List ArxivResult)) :
    (fetchRun d api).1.filter isApiRequest =
      [Effect.apiRequest client (categorySearch d "cs.CL")] := by
  cases h : api (categorySearch d "cs.CL") with
  | error e =>
    rw [fetchRun_error d api e h]
    rfl
  | ok rs =>
    rw [fetchRun_ok d api rs h]
    simp [isApiRequest, filter_isApiRequest_yield_sleep]

/-- The rank-then-report tail of the pipeline, applied to the fetched list. -/
def rankReportPhase (papers : List Paper)
    (rank : List Paper → Except String (List Paper))
    (report : List Paper → Except String String) : Except RunError String :=
  match rank papers with
  | Except.error m => Except.error (RunError.llm m)
  | Except.ok ranked =>
    match report ranked with
    | Except.error m => Except.error (RunError.llm m)
    | Except.ok html => Except.ok html

lemma crewKickoff_snd_error (d : Date)
    (api : Search → Except NetworkError (List ArxivResult))
    (rank : List Paper → Except String (List Paper))
    (report : List Paper → Except String String)
    (e : NetworkError) (h : api (categorySearch d "cs.CL") = Except.error e) :
    (crewKickoff d api rank report).2 = Except.error (RunError.network e) := by
  unfold crewKickoff
  rw [fetchRun_error d api e h]

lemma crewKickoff_snd_ok (d : Date)
    (api : Search → Except NetworkError (List ArxivResult))
    (rank : List Paper → Except String (List Paper))
    (report : List Paper → Except String String)
    (rs : List ArxivResult) (h : api (categorySearch d "cs.CL") = Except.ok rs) :
    (crewKickoff d api rank report).2 =
      rankReportPhase (rs.map toPaper) rank report := by
  unfold crewKickoff rankReportPhase
  rw [fetchRun_ok d api rs h]
  dsimp only
  cases hr : rank (rs.map toPaper) with
  | error m => rfl
  | ok ranked =>
    dsimp only
    cases hp : report ranked with
    | error m => rfl
    | ok html => rfl

/-- The full trace of a successful run. -/
lemma crewKickoff_fst_success (d : Date)
    (api : Search → Except NetworkError (List ArxivResult))
    (rank : List Paper → Except String (List Paper))
    (report : List Paper → Except String String)
    (rs : List ArxivResult) (ranked : List Paper) (html : String)
    (h1 : api (categorySearch d "cs.CL") = Except.ok rs)
    (h2 : rank (rs.map toPaper) = Except.ok ranked)
    (h3 : report ranked = Except.ok html) :
    (crewKickoff d api rank report).1 =
      Effect.stage StageEvent.fetchStart :: (fetchRun d api).1 ++
        [Effect.stage StageEvent.fetchEnd, Effect.stage StageEvent.rankStart,
         Effect.stage StageEvent.rankEnd, Effect.stage StageEvent.reportStart,
         Effect.stage StageEvent.reportEnd,
         Effect.fileWrite "./ai_research_report.html" html] := by
  unfold crewKickoff
  rw [fetchRun_ok d api rs h1]
  dsimp only
  rw [h2]
  dsimp only
  rw [h3]
  simp [reporting_task]

/- ## Sanity checks on concrete inputs. -/

example : nextDay ⟨2024, 2, 28⟩ = ⟨2024, 2, 29⟩ := by decide
example : nextDay ⟨2025, 2, 28⟩ = ⟨2025, 3, 1⟩ := by decide
example : nextDay ⟨2024, 12, 31⟩ = ⟨2025, 1, 1⟩ := by decide
example : strftimeYmdHM ⟨2025, 3, 12⟩ = "202503120000" := by decide
example : validateTargetDate "2025-03-12" = some ⟨2025, 3, 12⟩ := by decide
example : validateTargetDate "2025-02-30" = none := by decide
example : validateTargetDate "2025-3-12" = none := by decide
example : (categorySearch ⟨2025, 3, 12⟩ "cs.CL").query =
    "cat:cs.CL AND submittedDate:[202503120000 TO 202503130000]" := by decide

/- ## The claims. -/

/-- C1: for every calendar-valid target date, the search query built by the
fetch operation restricts `submittedDate` to the interval beginning at
00:00 of the target date and ending at 00:00 of the following day, both
endpoints rendered as `YYYYMMDDHHMM` (the `strftime` of a date ends in
`0000`, i.e. time 00:00, and `nextDay` advances the calendar ordinal by
exactly one). -/
theorem claim1_fetch_query_covers_exactly_target_date (d : Date) (h : ValidDate d) :
    (categorySearch d "cs.CL").query =
      "cat:cs.CL AND submittedDate:[" ++ strftimeYmdHM d ++ " TO " ++
        strftimeYmdHM (nextDay d) ++ "]" ∧
    strftimeYmdHM d = pad4 d.year ++ pad2 d.month ++ pad2 d.day ++ "0000" ∧
    strftimeYmdHM (nextDay d) =
      pad4 (nextDay d).year ++ pad2 (nextDay d).month ++ pad2 (nextDay d).day ++ "0000" ∧
    ValidDate (nextDay d) ∧
    toOrdinal (nextDay d) = toOrdinal d + 1 :=
  ⟨rfl, rfl, rfl, validDate_nextDay d h, toOrdinal_nextDay d h⟩

/-- Witness for C1 at the concrete date 2025-03-12. -/
theorem claim1_witness :
    ValidDate ⟨2025, 3, 12⟩ ∧
      toOrdinal (nextDay ⟨2025, 3, 12⟩) = toOrdinal ⟨2025, 3, 12⟩ + 1 :=
  ⟨by decide,
   (claim1_fetch_query_covers_exactly_target_date ⟨2025, 3, 12⟩ (by decide)).2.2.2.2⟩

/-- C2: every element of the fetched list is a `Paper` record built from
exactly the five fields title, authors, summary (abstract), published
timestamp and URL; the fetch writes nothing to any store (no file-write
effect in its trace) and the list is only handed to the following
rank-and-report phase of the pipeline. -/
theorem claim2_paper_record_shape_and_no_store (d : Date)
    (api : Search → Except NetworkError (List ArxivResult))
    (rank : List Paper → Except String (List Paper))
    (report : List Paper → Except String String)
    (rs : List ArxivResult)
    (h : api (categorySearch d "cs.CL") = Except.ok rs) :
    (fetchRun d api).2 = Except.ok (rs.map toPaper) ∧
    (∀ p ∈ rs.map toPaper, ∃ r ∈ rs,
        p = { title := r.title, authors := r.authors.map Author.name,
              summary := r.summary, published := r.published, url := r.entry_id }) ∧
    (fetchRun d api).1.filter isFileWrite = [] ∧
    (crewKickoff d api rank report).2 = rankReportPhase (rs.map toPaper) rank report := by
  refine ⟨by rw [fetchRun_ok d api rs h], ?_, filter_isFileWrite_fetchRun d api,
    crewKickoff_snd_ok d api rank report rs h⟩
  intro p hp
  rcases List.mem_map.mp hp with ⟨r, hr, rfl⟩
  exact ⟨r, hr, rfl⟩

/-- Witness for C2 on a one-element API response. -/
theorem claim2_witness :
    (fetchRun ⟨2025, 3, 12⟩ (fun _ => Except.ok [⟨"T", [⟨"Ann"⟩], "S", "P", "U"⟩])).2 =
      Except.ok (([⟨"T", [⟨"Ann"⟩], "S", "P", "U"⟩] : List ArxivResult).map toPaper) :=
  (claim2_paper_record_shape_and_no_store ⟨2025, 3, 12⟩
    (fun _ => Except.ok [⟨"T", [⟨"Ann"⟩], "S", "P", "U"⟩])
    (fun ps => Except.ok ps) (fun _ => Except.ok "h") [⟨"T", [⟨"Ann"⟩], "S", "P", "U"⟩]
    rfl).1

/-- C3: failures propagate uncaught through the pipeline: a network error in
the fetch terminates the run with that error; an error in either LLM stage
terminates the run with that error; and an empty fetch result is not mapped
to any handled case — the fetch returns the empty list unchanged and the
pipeline simply proceeds on it. -/
theorem claim3_failures_propagate_uncaught (d : Date)
    (api : Search → Except NetworkError (List ArxivResult))
    (rank : List Paper → Except String (List Paper))
    (report : List Paper → Except String String) :
    (∀ e, api (categorySearch d "cs.CL") = Except.error e →
      (crewKickoff d api rank report).2 = Except.error (RunError.network e)) ∧
    (∀ rs m, api (categorySearch d "cs.CL") = Except.ok rs →
      rank (rs.map toPaper) = Except.error m →
      (crewKickoff d api rank report).2 = Except.error (RunError.llm m)) ∧
    (∀ rs ranked m, api (categorySearch d "cs.CL") = Except.ok rs →
      rank (rs.map toPaper) = Except.ok ranked →
      report ranked = Except.error m →
      (crewKickoff d api rank report).2 = Except.error (RunError.llm m)) ∧
    (api (categorySearch d "cs.CL") = Except.ok [] →
      (fetchRun d api).2 = Except.ok [] ∧
      (crewKickoff d api rank report).2 = rankReportPhase [] rank report) := by
  refine ⟨?_, ?_, ?_, ?_⟩
  · intro e he
    exact crewKickoff_snd_error d api rank report e he
  · intro rs m hok hr
    rw [crewKickoff_snd_ok d api rank report rs hok]
    unfold rankReportPhase
    rw [hr]
  · intro rs ranked m hok hr hp
    rw [crewKickoff_snd_ok d api rank report rs hok]
    unfold rankReportPhase
    rw [hr]
    dsimp only
    rw [hp]
  · intro hok
    refine ⟨?_, crewKickoff_snd_ok d api rank report [] hok⟩
    rw [fetchRun_ok d api [] hok]
    rfl

/-- Witness for C3: a failing API terminates the run with that network
error, and an empty response yields the empty list. -/
theorem claim3_witness :
    (crewKickoff ⟨2025, 3, 12⟩ (fun _ => Except.error ⟨"connection refused"⟩)
        (fun ps => Except.ok ps) (fun _ => Except.ok "<html></html>")).2 =
      Except.error (RunError.network ⟨"connection refused"⟩) ∧
    (fetchRun ⟨2025, 3, 12⟩ (fun _ => Except.ok [])).2 = Except.ok [] :=
  ⟨(claim3_failures_propagate_uncaught ⟨2025, 3, 12⟩
      (fun _ => Except.error ⟨"connection refused"⟩)
      (fun ps => Except.ok ps) (fun _ => Except.ok "<html></html>")).1 _ rfl,
   ((claim3_failures_propagate_uncaught ⟨2025, 3, 12⟩ (fun _ => Except.ok [])
      (fun ps => Except.ok ps) (fun _ => Except.ok "<html></html>")).2.2.2 rfl).1⟩

/-- C4: in every run that completes, the stage markers occur in the strict
fixed order fetch, then rank, then report, with each stage ending before
the next begins; the crew is configured with the two tasks in that order
and the reporting task depends on the research task via `context`. -/
theorem claim4_stages_execute_in_strict_order (d : Date)
    (api : Search → Except NetworkError (List ArxivResult))
    (rank : List Paper → Except String (List Paper))
    (report : List Paper → Except String String)
    (rs : List ArxivResult) (ranked : List Paper) (html : String)
    (h1 : api (categorySearch d "cs.CL") = Except.ok rs)
    (h2 : rank (rs.map toPaper) = Except.ok ranked)
    (h3 : report ranked = Except.ok html) :
    stageEvents (crewKickoff d api rank report).1 =
      [StageEvent.fetchStart, StageEvent.fetchEnd, StageEvent.rankStart,
       StageEvent.rankEnd, StageEvent.reportStart, StageEvent.reportEnd] ∧
    arxiv_research_crew.tasks = [research_task, reporting_task] ∧
    reporting_task.context = [research_task] := by
  refine ⟨?_, rfl, rfl⟩
  rw [crewKickoff_fst_success d api rank report rs ranked html h1 h2 h3]
  have hf := stageEvents_fetchRun d api
  unfold stageEvents at hf ⊢
  simp [List.filterMap_cons, List.filterMap_append, hf, stageOf]

/-- Witness for C4 on a concrete successful run. -/
theorem claim4_witness :
    stageEvents (crewKickoff ⟨2025, 3, 12⟩ (fun _ => Except.ok [])
        (fun ps => Except.ok ps) (fun _ => Except.ok "<html></html>")).1 =
      [StageEvent.fetchStart, StageEvent.fetchEnd, StageEvent.rankStart,
       StageEvent.rankEnd, StageEvent.reportStart, StageEvent.reportEnd] :=
  (claim4_stages_execute_in_strict_order ⟨2025, 3, 12⟩ (fun _ => Except.ok [])
    (fun ps => Except.ok ps) (fun _ => Except.ok "<html></html>")
    [] [] "<html></html>" rfl rfl rfl).1

/-- C6: a completed run writes exactly one file, at the fixed path
`./ai_research_report.html` (the reporting task's configured
`output_file`); the research task has no output file and the fetch stage
writes no file at all. -/
theorem claim6_exactly_one_output_file (d : Date)
    (api : Search → Except NetworkError (List ArxivResult))
    (rank : List Paper → Except String (List Paper))
    (report : List Paper → Except String String)
    (rs : List ArxivResult) (ranked : List Paper) (html : String)
    (h1 : api (categorySearch d "cs.CL") = Except.ok rs)
    (h2 : rank (rs.map toPaper) = Except.ok ranked)
    (h3 : report ranked = Except.ok html) :
    (crewKickoff d api rank report).1.filter isFileWrite =
      [Effect.fileWrite "./ai_research_report.html" html] ∧
    reporting_task.output_file = some "./ai_research_report.html" ∧
    research_task.output_file = none ∧
    (fetchRun d api).1.filter isFileWrite = [] := by
  refine ⟨?_, rfl, rfl, filter_isFileWrite_fetchRun d api⟩
  rw [crewKickoff_fst_success d api rank report rs ranked html h1 h2 h3]
  simp [List.filter_cons, List.filter_append, isFileWrite,
    filter_isFileWrite_fetchRun d api]

/-- Witness for C6 on a concrete successful run. -/
theorem claim6_witness :
    (crewKickoff ⟨2025, 3, 12⟩ (fun _ => Except.ok [])
        (fun ps => Except.ok ps) (fun _ => Except.ok "<html></html>")).1.filter
        isFileWrite =
      [Effect.fileWrite "./ai_research_report.html" "<html></html>"] :=
  (claim6_exactly_one_output_file ⟨2025, 3, 12⟩ (fun _ => Except.ok [])
    (fun ps => Except.ok ps) (fun _ => Except.ok "<html></html>")
    [] [] "<html></html>" rfl rfl rfl).1

/-- C7: the fetch is a paginated client in a fixed-delay loop and nothing
more: the client is configured with page size 100 and a fixed 3-second
inter-request delay, a 3-second sleep is executed after every fetched
record (one sleep per record, immediately following its yield), and every
sleep in the trace is exactly 3 seconds — there is no retry or backoff
effect of any other kind. -/
theorem claim7_fetch_is_fixed_delay_loop (d : Date)
    (api : Search → Except NetworkError (List ArxivResult))
    (rs : List ArxivResult)
    (h : api (categorySearch d "cs.CL") = Except.ok rs) :
    client.page_size = 100 ∧
    client.delay_seconds = 3 ∧
    (fetchRun d api).1 =
      Effect.printed ("Fetching papers for category: " ++ "cs.CL") ::
        Effect.apiRequest client (categorySearch d "cs.CL") ::
        (rs.flatMap (fun r => [Effect.yielded r, Effect.slept 3]) ++
          [Effect.printed ("Fetched " ++ toString rs.length ++ " papers from " ++ "cs.CL")]) ∧
    (fetchRun d api).1.countP isSleepEffect = rs.length ∧
    (∀ n, Effect.slept n ∈ (fetchRun d api).1 → n = 3) := by
  have hrun := fetchRun_ok d api rs h
  refine ⟨rfl, rfl, by rw [hrun], ?_, ?_⟩
  · rw [hrun]
    simp [List.countP_cons, List.countP_append, isSleepEffect,
      countP_isSleep_yield_sleep]
  · intro n hn
    rw [hrun] at hn
    simp only [List.mem_cons, List.mem_append, List.mem_singleton] at hn
    rcases hn with h1 | h1 | h1 | h1
    · simp at h1
    · simp at h1
    · rcases mem_yield_sleep rs _ h1 with ⟨r, _, heq⟩ | heq
      · simp at heq
      · simpa using heq
    · simp at h1

/-- Witness for C7 on a one-record API response. -/
theorem claim7_witness :
    client.page_size = 100 ∧
    (fetchRun ⟨2025, 3, 12⟩
        (fun _ => Except.ok [⟨"T", [], "S", "P", "U"⟩])).1.countP isSleepEffect = 1 :=
  ⟨(claim7_fetch_is_fixed_delay_loop ⟨2025, 3, 12⟩
      (fun _ => Except.ok [⟨"T", [], "S", "P", "U"⟩]) [⟨"T", [], "S", "P", "U"⟩] rfl).1,
   (claim7_fetch_is_fixed_delay_loop ⟨2025, 3, 12⟩
      (fun _ => Except.ok [⟨"T", [], "S", "P", "U"⟩]) [⟨"T", [], "S", "P", "U"⟩]
      rfl).2.2.2.1⟩

/-- C8: the external input is a single date string: the tool's input schema
has exactly the one field `target_date`, and validation succeeds if and
only if the supplied string is a valid date in `YYYY-MM-DD` form (it is the
rendering of some calendar-valid date). -/
theorem claim8_input_is_single_validated_date (s : String) :
    arxiv_search_tool.argsSchemaFields = ["target_date"] ∧
    ((validateTargetDate s).isSome = true ↔ IsValidDateString s) :=
  ⟨rfl, validateTargetDate_isSome_iff s⟩

/-- C9: the fetch queries exactly one category, `cs.CL` — the category list
is `["cs.CL"]`, exactly one API request is issued (for the `cs.CL` search),
and the returned list is the `cs.CL` results alone — even though the tool's
published description speaks of multiple selected AI categories. -/
theorem claim9_only_cs_CL_is_queried (d : Date)
    (api : Search → Except NetworkError (List ArxivResult))
    (rs : List ArxivResult)
    (h : api (categorySearch d "cs.CL") = Except.ok rs) :
    AI_CATEGORIES = ["cs.CL"] ∧
    arxiv_search_tool.description =
      "Fetches all ArXiv papers from selected AI categories (e.g., cs.CL, cs.AI) submitted on the target date." ∧
    (fetchRun d api).1.filter isApiRequest =
      [Effect.apiRequest client (categorySearch d "cs.CL")] ∧
    (fetchRun d api).2 = Except.ok (rs.map toPaper) :=
  ⟨rfl, rfl, filter_isApiRequest_fetchRun d api, by rw [fetchRun_ok d api rs h]⟩

/-- Witness for C9 on a concrete API response. -/
theorem claim9_witness :
    AI_CATEGORIES = ["cs.CL"] ∧
    (fetchRun ⟨2025, 3, 12⟩ (fun _ => Except.ok [])).1.filter isApiRequest =
      [Effect.apiRequest client (categorySearch ⟨2025, 3, 12⟩ "cs.CL")] :=
  ⟨(claim9_only_cs_CL_is_queried ⟨2025, 3, 12⟩ (fun _ => Except.ok []) [] rfl).1,
   (claim9_only_cs_CL_is_queried ⟨2025, 3, 12⟩ (fun _ => Except.ok []) [] rfl).2.2.1⟩

/-- C10: the request issued to the external API depends only on the target
date: for any two API oracles the issued requests are identical, and they
consist of the single request with page size 100, delay 3, the `cs.CL`
date-range query, sorted by submission date, with no result cap. -/
theorem claim10_request_depends_only_on_target_date (d : Date)
    (api1 api2 : Search → Except NetworkError (List ArxivResult)) :
    (fetchRun d api1).1.filter isApiRequest = (fetchRun d api2).1.filter isApiRequest ∧
    (fetchRun d api1).1.filter isApiRequest =
      [Effect.apiRequest { page_size := 100, delay_seconds := 3 }
        { query := "cat:" ++ "cs.CL" ++ " AND submittedDate:[" ++ strftimeYmdHM d ++
            " TO " ++ strftimeYmdHM (nextDay d) ++ "]"
          sort_by := SortCriterion.submittedDate
          max_results := none }] := by
  refine ⟨?_, ?_⟩
  · rw [filter_isApiRequest_fetchRun d api1, filter_isApiRequest_fetchRun d api2]
  · rw [filter_isApiRequest_fetchRun d api1]
    rfl

end ArxivApp
